import Mathlib

/-!
Verification of the `bettergit` git poller (`src/bettergit/git_poller.py`).

The Python source is shallowly embedded: each `collect_*` coroutine becomes a
pure Lean function from the outcome of its external command invocations (or a
model of the on-disk marker files) to an `Option` of its partial result, where
`none` models a raised exception.  The stateful `collect` cycle and the
background `_do_fetch` task become explicit state-passing functions over a
poller state and the module-level `last_poll` registry.
-/

set_option autoImplicit false

namespace BetterGit

/-- The ASCII whitespace characters recognised by Python's `str.strip`
and `str.split` on subprocess output. -/
def pyIsSpace (c : Char) : Bool :=
  c = ' ' ∨ c = '\t' ∨ c = '\n' ∨ c = '\r' ∨ c = '\x0b' ∨ c = '\x0c'

/-- Python `str.strip()`: drop whitespace from both ends. -/
def pyStrip (s : List Char) : List Char :=
  ((s.dropWhile pyIsSpace).reverse.dropWhile pyIsSpace).reverse

/-- Helper for `splitlines`: the first argument is the rest of the text, the
second the (reversed) current line. -/
def splitlinesAux : List Char → List Char → List (List Char)
  | [], cur => [cur.reverse]
  | c :: rest, cur =>
    if c = '\n' then
      match rest with
      | [] => [cur.reverse]
      | _ :: _ => cur.reverse :: splitlinesAux rest []
    else splitlinesAux rest (c :: cur)

/-- Python `str.splitlines()` on newline-separated subprocess output:
no empty trailing element is produced for a terminating newline, and the
empty string yields no lines. -/
def splitlines (s : List Char) : List (List Char) :=
  match s with
  | [] => []
  | _ => splitlinesAux s []

/-- Helper for `pySplit`: first argument is the rest of the text, second the
(reversed) current word. -/
def pySplitAux : List Char → List Char → List (List Char)
  | [], cur => if cur = [] then [] else [cur.reverse]
  | c :: rest, cur =>
    if pyIsSpace c then
      if cur = [] then pySplitAux rest []
      else cur.reverse :: pySplitAux rest []
    else pySplitAux rest (c :: cur)

/-- Python `str.split()` with no separator: split on whitespace runs,
producing no empty words. -/
def pySplit (s : List Char) : List (List Char) :=
  pySplitAux s []

/-- The numeric value of a decimal digit character. -/
def digitVal (c : Char) : Option Nat :=
  if '0' ≤ c ∧ c ≤ '9' then some (c.toNat - '0'.toNat) else none

/-- Accumulate the decimal digits of the first argument. -/
def parseDigitsAux : List Char → Nat → Option Nat
  | [], acc => some acc
  | c :: rest, acc =>
    match digitVal c with
    | some d => parseDigitsAux rest (acc * 10 + d)
    | none => none

/-- An optional sign followed by at least one decimal digit. -/
def parseSignDigits : List Char → Option Int
  | [] => none
  | '-' :: rest =>
    if rest = [] then none else (parseDigitsAux rest 0).map (fun n => -(n : Int))
  | '+' :: rest =>
    if rest = [] then none else (parseDigitsAux rest 0).map (fun n => (n : Int))
  | s => (parseDigitsAux s 0).map (fun n => (n : Int))

/-- Python `int(s)` on a text argument: surrounding whitespace is ignored,
then an optional sign and at least one digit; anything else raises
(`none`). -/
def pyInt (s : List Char) : Option Int :=
  parseSignDigits (pyStrip s)

/-- The observable outcome of one external command invocation: the process
exit code and its decoded standard output.  A command whose very spawn fails
is modelled as `none` at the use sites (`Option CmdOut`), matching the
exception raised by process creation. -/
structure CmdOut where
  rc : Int
  stdout : List Char
deriving DecidableEq, Repr

/-- A marker file as seen by `_read_first_line_int`: either absent (opening
it raises) or present with the list of lines the file iterator yields. -/
inductive FileContent where
  | missing
  | present (lines : List (List Char))
deriving DecidableEq, Repr

/-- `GitPoller._read_first_line_int`: open the file and return `int` of the
first line, stripped.  A missing file raises (`none`); a file with no lines
falls off the loop and returns Python `None` (`some none`); a first line
that is not an integer raises (`none`). -/
def read_first_line_int (f : FileContent) : Option (Option Int) :=
  match f with
  | .missing => none
  | .present [] => some none
  | .present (line :: _) =>
    match pyInt (pyStrip line) with
    | some n => some (some n)
    | none => none

/-- The working-tree counters accumulated by `collect_repo_counts`. -/
structure RepoCounts where
  dirty : Bool
  untracked : Nat
  modified : Nat
  staged : Nat
  deleted : Nat
deriving DecidableEq, Repr

/-- One iteration of the `collect_repo_counts` loop body (after `dirty` has
been set): classify `line[0:2]` through the `if`/`elif` chain of the source.
An empty line would make `status[0]` raise `IndexError` (`none`). -/
def classifyLine (c : RepoCounts) (line : List Char) : Option RepoCounts :=
  let status := line.take 2
  if status = ['?', '?'] then some { c with untracked := c.untracked + 1 }
  else if status = ['A', 'M'] then
    some { c with staged := c.staged + 1, modified := c.modified + 1 }
  else if status = [' ', 'M'] then some { c with modified := c.modified + 1 }
  else if status = [' ', 'D'] then some { c with deleted := c.deleted + 1 }
  else
    match status with
    | [] => none
    | c0 :: _ =>
      if c0 = 'A' then some { c with staged := c.staged + 1 }
      else if c0 = 'M' then some { c with staged := c.staged + 1 }
      else if c0 = 'D' then some { c with staged := c.staged + 1 }
      else some c

/-- The `for line in stdout.splitlines()` loop of `collect_repo_counts`:
each iteration sets `dirty` and classifies the line. -/
def countsLoop : List (List Char) → RepoCounts → Option RepoCounts
  | [], c => some c
  | line :: rest, c =>
    match classifyLine { c with dirty := true } line with
    | some c2 => countsLoop rest c2
    | none => none

/-- `GitPoller.collect_repo_counts`: run `git status --porcelain
--ignore-submodules -unormal`; a nonzero exit raises, otherwise fold the
classification loop over the output lines starting from all-zero counters. -/
def collect_repo_counts (cmd : Option CmdOut) : Option RepoCounts :=
  match cmd with
  | none => none
  | some o =>
    if o.rc ≠ 0 then none
    else countsLoop (splitlines o.stdout) ⟨false, 0, 0, 0, 0⟩

/-- `GitPoller.collect_current_branch`: `git branch --show-current`, falling
back to `git rev-parse --short HEAD` wrapped in square brackets when the
first command exits nonzero or prints nothing; raises when the fallback also
exits nonzero. -/
def collect_current_branch (branch_cmd revparse_cmd : Option CmdOut) :
    Option (List Char) :=
  match branch_cmd with
  | none => none
  | some o1 =>
    if o1.rc = 0 ∧ o1.stdout ≠ [] then some (pyStrip o1.stdout)
    else
      match revparse_cmd with
      | none => none
      | some o2 =>
        if o2.rc = 0 then some ('[' :: (pyStrip o2.stdout ++ [']'])) else none

/-- `GitPoller.collect_stashes`: `git stash list`; nonzero exit raises,
otherwise the stash count is the number of output lines. -/
def collect_stashes (cmd : Option CmdOut) : Option Nat :=
  match cmd with
  | none => none
  | some o =>
    if o.rc ≠ 0 then none else some (splitlines o.stdout).length

/-- `GitPoller.collect_counts`: `git rev-list --left-right --count
HEAD...@{u}`.  On zero exit, unpack `map(int, stdout.split())` into exactly
two integers (anything else raises); on nonzero exit substitute `(0, 0)`. -/
def collect_counts (cmd : Option CmdOut) : Option (Int × Int) :=
  match cmd with
  | none => none
  | some o =>
    if o.rc = 0 then
      match (pySplit o.stdout).mapM pyInt with
      | some [a, b] => some (a, b)
      | _ => none
    else some (0, 0)

/-- The on-disk markers under `.git/` inspected by `collect_repo_state`:
directory and file existence flags plus the contents of the four numeric
marker files. -/
structure GitDir where
  rebaseMergeDir : Bool
  rebaseMergeInteractive : Bool
  rebaseMergeMsgnum : FileContent
  rebaseMergeEnd : FileContent
  rebaseApplyDir : Bool
  rebaseApplyNext : FileContent
  rebaseApplyLast : FileContent
  rebaseApplyRebasing : Bool
  rebaseApplyApplying : Bool
  mergeHead : Bool
  cherryPickHead : Bool
  revertHead : Bool
  bisectLog : Bool
deriving DecidableEq, Repr

/-- The `state`/`step`/`total` triple returned by `collect_repo_state`. -/
structure RepoState where
  state : Option String
  step : Option Int
  total : Option Int
deriving DecidableEq, Repr

/-- `GitPoller.collect_repo_state`: decode the in-progress operation from
marker files, `rebase-merge` first, then `rebase-apply`, then the
`MERGE_HEAD`/`CHERRY_PICK_HEAD`/`REVERT_HEAD`/`BISECT_LOG` chain. -/
def collect_repo_state (fs : GitDir) : Option RepoState :=
  if fs.rebaseMergeDir then do
    let st := if fs.rebaseMergeInteractive then "REBASE-i" else "REBASE-m"
    let step ← read_first_line_int fs.rebaseMergeMsgnum
    let total ← read_first_line_int fs.rebaseMergeEnd
    some ⟨some st, step, total⟩
  else if fs.rebaseApplyDir then do
    let step ← read_first_line_int fs.rebaseApplyNext
    let total ← read_first_line_int fs.rebaseApplyLast
    let st :=
      if fs.rebaseApplyRebasing then "REBASE"
      else if fs.rebaseApplyApplying then "AM"
      else "AM/REBASE"
    some ⟨some st, step, total⟩
  else if fs.mergeHead then some ⟨some "MERGING", none, none⟩
  else if fs.cherryPickHead then some ⟨some "CHERRY-PICKING", none, none⟩
  else if fs.revertHead then some ⟨some "REVERTING", none, none⟩
  else if fs.bisectLog then some ⟨some "BISECTING", none, none⟩
  else some ⟨none, none, none⟩

/-- The fields of the published snapshot (`RepoStatus(**res)`), the union of
the five collectors' disjoint partial results. -/
structure RepoStatus where
  dirty : Bool
  untracked : Nat
  modified : Nat
  staged : Nat
  deleted : Nat
  current_branch : List Char
  stashes : Nat
  push_count : Int
  pull_count : Int
  state : Option String
  step : Option Int
  total : Option Int
deriving DecidableEq, Repr

/-- The module-level `last_poll` dictionary, mapping a repository root to the
time of its last refresh start or completion. -/
abbrev Registry := List (String × Int)

/-- Dictionary lookup `last_poll[k]`. -/
def regGet : Registry → String → Option Int
  | [], _ => none
  | (k0, v0) :: rest, k => if k0 = k then some v0 else regGet rest k

/-- Dictionary assignment `last_poll[k] = v`. -/
def regSet : Registry → String → Int → Registry
  | [], k, v => [(k, v)]
  | (k0, v0) :: rest, k, v =>
    if k0 = k then (k, v) :: rest else (k0, v0) :: regSet rest k v

/-- Dictionary `last_poll.setdefault(k, d)`: return the stored value,
inserting `d` first when the key is absent. -/
def regSetdefault (reg : Registry) (k : String) (d : Int) : Int × Registry :=
  match regGet reg k with
  | some v => (v, reg)
  | none => (d, regSet reg k d)

/-- `POLLING_INTERVAL` from the source. -/
def POLLING_INTERVAL : Int := 10

/-- The poller's view of its pending fetch future at the start of a cycle:
still running, or completed (`done`), possibly with a stored exception
(`failed = true`). -/
inductive FutureStatus where
  | running
  | done (failed : Bool)
deriving DecidableEq, Repr

/-- The mutable per-instance state of a `GitPoller`. -/
structure PollerState where
  repo_root : Option String
  fetch_future : Option FutureStatus
  repo_status : Option RepoStatus
deriving DecidableEq, Repr

/-- One cycle's external inputs: the event-loop time and the outcome of each
command run during the cycle, plus the marker-file state read by
`collect_repo_state`.  `none` for a command models a spawn failure. -/
structure CollectEnv where
  now : Int
  remote_cmd : Option CmdOut
  status_cmd : Option CmdOut
  branch_cmd : Option CmdOut
  revparse_cmd : Option CmdOut
  stash_cmd : Option CmdOut
  revlist_cmd : Option CmdOut
  git_dir : GitDir
deriving Repr

/-- The outcome of one `collect` cycle: the new poller state and registry,
whether the cycle raised (`failed`), and whether this cycle created a new
background refresh task (`startedRefresh`). -/
structure CycleResult where
  poller : PollerState
  registry : Registry
  failed : Bool
  startedRefresh : Bool
deriving DecidableEq, Repr

/-- The fetch-scheduler prefix of `GitPoller.collect` (lines 67-80 of the
source): reap a completed future, or decide whether to start a new one from
the `remote show` output and the debounce registry.  A reap of a future that
stored an exception re-raises it, leaving the future in place; the reap of a
successful future clears it and stamps the registry at the current root. -/
def fetchStep (s : PollerState) (reg : Registry) (env : CollectEnv)
    (root : String) : CycleResult :=
  match s.fetch_future with
  | some .running => ⟨s, reg, false, false⟩
  | some (.done failed) =>
    if failed then ⟨s, reg, true, false⟩
    else ⟨{ s with fetch_future := none }, regSet reg root env.now, false, false⟩
  | none =>
    match env.remote_cmd with
    | none => ⟨s, reg, true, false⟩
    | some out =>
      if pyStrip out.stdout ≠ [] then
        let vr := regSetdefault reg root 0
        if vr.1 + POLLING_INTERVAL < env.now then
          ⟨{ s with fetch_future := some .running }, vr.2, false, true⟩
        else ⟨s, vr.2, false, false⟩
      else ⟨s, reg, false, false⟩

/-- The `asyncio.gather` of the five `collect_*` methods followed by the
dictionary merge into `RepoStatus`: `none` as soon as any collector
raises. -/
def runCollectors (env : CollectEnv) : Option RepoStatus := do
  let counts ← collect_counts env.revlist_cmd
  let branch ← collect_current_branch env.branch_cmd env.revparse_cmd
  let rcnt ← collect_repo_counts env.status_cmd
  let st ← collect_repo_state env.git_dir
  let stashes ← collect_stashes env.stash_cmd
  some
    { dirty := rcnt.dirty, untracked := rcnt.untracked,
      modified := rcnt.modified, staged := rcnt.staged,
      deleted := rcnt.deleted, current_branch := branch, stashes := stashes,
      push_count := counts.1, pull_count := counts.2,
      state := st.state, step := st.step, total := st.total }

/-- `GitPoller.collect`: with no repository root, publish an absent status;
otherwise run the fetch-scheduler step and, unless it raised, gather all
collectors and replace `repo_status` — a collector failure raises and leaves
the previously published `repo_status` in place. -/
def collect (s : PollerState) (reg : Registry) (env : CollectEnv) :
    CycleResult :=
  match s.repo_root with
  | none => ⟨{ s with repo_status := none }, reg, false, false⟩
  | some root =>
    let sched := fetchStep s reg env root
    if sched.failed then sched
    else
      match runCollectors env with
      | none => { sched with failed := true }
      | some status =>
        { sched with poller := { sched.poller with repo_status := some status } }

/-- The result of the background `_do_fetch` task running to completion:
the updated registry, whether the update-trigger callback was awaited, and
the status the future presents to the next reaping cycle. -/
structure FetchCompletion where
  registry : Registry
  callbackInvoked : Bool
  task : FutureStatus
deriving DecidableEq, Repr

/-- `GitPoller._do_fetch` as the effect of the background task completing:
`boundRoot` is `cur_root`, the repository root captured when the task
started (a fetch task is only created while a root is set);
`rootAtCompletion` is `self.repo_root` re-read after the fetch finishes.
A spawn failure of `git fetch --quiet` raises inside the task (the future
stores the exception and nothing else happens); otherwise the exit code is
discarded, the registry is stamped at `boundRoot` with the completion time,
and the callback is awaited exactly when the current root still equals the
bound root and a trigger was supplied. -/
def do_fetch (boundRoot : String) (rootAtCompletion : Option String)
    (reg : Registry) (fetch_cmd : Option CmdOut) (triggerSet : Bool)
    (completionTime : Int) : FetchCompletion :=
  match fetch_cmd with
  | none => ⟨reg, false, .done true⟩
  | some _ =>
    ⟨regSet reg boundRoot completionTime,
     decide (rootAtCompletion = some boundRoot) && triggerSet,
     .done false⟩

/-- The specification's per-line classification table for the working-tree
counters, as the quadruple of increments (untracked, modified, staged,
deleted) a line with the given two-character status code contributes. -/
def lineIncs (line : List Char) : Nat × Nat × Nat × Nat :=
  let status := line.take 2
  if status = ['?', '?'] then (1, 0, 0, 0)
  else if status = ['A', 'M'] then (0, 1, 1, 0)
  else if status = [' ', 'M'] then (0, 1, 0, 0)
  else if status = [' ', 'D'] then (0, 0, 0, 1)
  else
    match status.head? with
    | some c0 =>
      if c0 = 'A' ∨ c0 = 'M' ∨ c0 = 'D' then (0, 0, 1, 0) else (0, 0, 0, 0)
    | none => (0, 0, 0, 0)

/-- The untracked-count increment a status line contributes. -/
def untrackedInc (line : List Char) : Nat := (lineIncs line).1

/-- The modified-count increment a status line contributes. -/
def modifiedInc (line : List Char) : Nat := (lineIncs line).2.1

/-- The staged-count increment a status line contributes. -/
def stagedInc (line : List Char) : Nat := (lineIncs line).2.2.1

/-- The deleted-count increment a status line contributes. -/
def deletedInc (line : List Char) : Nat := (lineIncs line).2.2.2

/-- A `GitDir` with no operation in progress. -/
def cleanGitDir : GitDir :=
  { rebaseMergeDir := false, rebaseMergeInteractive := false,
    rebaseMergeMsgnum := .missing, rebaseMergeEnd := .missing,
    rebaseApplyDir := false, rebaseApplyNext := .missing,
    rebaseApplyLast := .missing, rebaseApplyRebasing := false,
    rebaseApplyApplying := false, mergeHead := false,
    cherryPickHead := false, revertHead := false, bisectLog := false }

/-- A cycle environment in which every command succeeds: clean working tree,
branch `main`, no stashes, ahead 3 / behind 1, no remotes configured, no
operation in progress. -/
def sampleEnv : CollectEnv :=
  { now := 100,
    remote_cmd := some ⟨0, []⟩,
    status_cmd := some ⟨0, []⟩,
    branch_cmd := some ⟨0, "main\n".toList⟩,
    revparse_cmd := some ⟨0, []⟩,
    stash_cmd := some ⟨0, []⟩,
    revlist_cmd := some ⟨0, "3\t1\n".toList⟩,
    git_dir := cleanGitDir }

/-- `sampleEnv` with the porcelain status command failing. -/
def failEnv : CollectEnv :=
  { sampleEnv with status_cmd := some ⟨1, []⟩ }

/-- The snapshot `sampleEnv` produces. -/
def sampleStatus : RepoStatus :=
  { dirty := false, untracked := 0, modified := 0, staged := 0, deleted := 0,
    current_branch := "main".toList, stashes := 0, push_count := 3,
    pull_count := 1, state := none, step := none, total := none }

lemma classifyLine_cons (c : RepoCounts) (a : Char) (t : List Char) :
    classifyLine c (a :: t) =
      some ⟨c.dirty, c.untracked + untrackedInc (a :: t),
        c.modified + modifiedInc (a :: t), c.staged + stagedInc (a :: t),
        c.deleted + deletedInc (a :: t)⟩ := by
  rcases t with _ | ⟨b, t2⟩
  · have h1 : List.take 2 [a] = [a] := rfl
    simp only [classifyLine, untrackedInc, modifiedInc, stagedInc, deletedInc,
      lineIncs, h1, List.head?]
    split_ifs <;> simp_all
  · have h1 : List.take 2 (a :: b :: t2) = [a, b] := rfl
    simp only [classifyLine, untrackedInc, modifiedInc, stagedInc, deletedInc,
      lineIncs, h1, List.head?]
    split_ifs <;> simp_all

lemma countsLoop_spec (lines : List (List Char)) :
    ∀ c : RepoCounts, (∀ l ∈ lines, l ≠ []) →
      countsLoop lines c =
        some ⟨c.dirty || !lines.isEmpty,
          c.untracked + (lines.map untrackedInc).sum,
          c.modified + (lines.map modifiedInc).sum,
          c.staged + (lines.map stagedInc).sum,
          c.deleted + (lines.map deletedInc).sum⟩ := by
  induction lines with
  | nil => intro c h; simp [countsLoop]
  | cons l t ih =>
    intro c h
    obtain ⟨a, t0, rfl⟩ : ∃ a t0, l = a :: t0 := by
      cases l with
      | nil => exact absurd rfl (h [] (by simp))
      | cons a t0 => exact ⟨a, t0, rfl⟩
    have hrest : ∀ l2 ∈ t, l2 ≠ [] := fun l2 hl2 => h l2 (List.mem_cons_of_mem _ hl2)
    simp only [countsLoop, classifyLine_cons]
    rw [ih _ hrest]
    simp [Nat.add_assoc]

lemma sum_map_all_one {α : Type} (f : α → Nat) :
    ∀ xs : List α, (∀ x ∈ xs, f x = 1) → (xs.map f).sum = xs.length := by
  intro xs
  induction xs with
  | nil => simp
  | cons x t ih => intro h; simp_all; omega

lemma sum_map_all_zero {α : Type} (f : α → Nat) :
    ∀ xs : List α, (∀ x ∈ xs, f x = 0) → (xs.map f).sum = 0 := by
  intro xs
  induction xs with
  | nil => simp
  | cons x t ih => intro h; simp_all

lemma regGet_regSet_self (reg : Registry) (k : String) (v : Int) :
    regGet (regSet reg k v) k = some v := by
  induction reg with
  | nil => simp [regSet, regGet]
  | cons p rest ih =>
    obtain ⟨k0, v0⟩ := p
    by_cases hk : k0 = k <;> simp [regSet, regGet, hk, ih]

lemma regGet_regSet_ne (reg : Registry) (k k2 : String) (v : Int)
    (h : k2 ≠ k) : regGet (regSet reg k v) k2 = regGet reg k2 := by
  induction reg with
  | nil => simp [regSet, regGet, Ne.symm h]
  | cons p rest ih =>
    obtain ⟨k0, v0⟩ := p
    by_cases hk : k0 = k
    · subst hk
      simp [regSet, regGet, Ne.symm h]
    · simp [regSet, regGet, hk, ih]

/-- C1: the working-tree counts collector classifies each porcelain status
line by its two-character code — `??` increments untracked, `AM` both staged
and modified, `" M"` modified, `" D"` deleted, and any remaining line whose
first column is `A`, `M` or `D` increments staged; `dirty` is true exactly
when at least one line is present; empty output yields `dirty = false` with
all four counts zero; and an output of only `??` lines yields
`untracked = line count` with the other three counts zero. -/
theorem C1_repo_counts_classification (stdout : List Char)
    (h : ∀ l ∈ splitlines stdout, l ≠ []) :
    (collect_repo_counts (some ⟨0, stdout⟩) =
      some ⟨!(splitlines stdout).isEmpty,
        ((splitlines stdout).map untrackedInc).sum,
        ((splitlines stdout).map modifiedInc).sum,
        ((splitlines stdout).map stagedInc).sum,
        ((splitlines stdout).map deletedInc).sum⟩)
  ∧ ((∀ l ∈ splitlines stdout, l.take 2 = ['?', '?']) →
      collect_repo_counts (some ⟨0, stdout⟩) =
        some ⟨!(splitlines stdout).isEmpty, (splitlines stdout).length, 0, 0, 0⟩)
  ∧ collect_repo_counts (some ⟨0, []⟩) = some ⟨false, 0, 0, 0, 0⟩ := by
  have hmain : collect_repo_counts (some ⟨0, stdout⟩) =
      some ⟨!(splitlines stdout).isEmpty,
        ((splitlines stdout).map untrackedInc).sum,
        ((splitlines stdout).map modifiedInc).sum,
        ((splitlines stdout).map stagedInc).sum,
        ((splitlines stdout).map deletedInc).sum⟩ := by
    simp only [collect_repo_counts]
    rw [if_neg (by simp)]
    rw [countsLoop_spec _ _ h]
    simp
  refine ⟨hmain, fun hq => ?_, by decide⟩
  rw [hmain]
  have hu : ((splitlines stdout).map untrackedInc).sum = (splitlines stdout).length :=
    sum_map_all_one _ _ (fun l hl => by simp [untrackedInc, lineIncs, hq l hl])
  have hm : ((splitlines stdout).map modifiedInc).sum = 0 :=
    sum_map_all_zero _ _ (fun l hl => by simp [modifiedInc, lineIncs, hq l hl])
  have hs : ((splitlines stdout).map stagedInc).sum = 0 :=
    sum_map_all_zero _ _ (fun l hl => by simp [stagedInc, lineIncs, hq l hl])
  have hd : ((splitlines stdout).map deletedInc).sum = 0 :=
    sum_map_all_zero _ _ (fun l hl => by simp [deletedInc, lineIncs, hq l hl])
  rw [hu, hm, hs, hd]

/-- Witness for C1 at the concrete porcelain output `?? a\n?? b\n`. -/
theorem C1_witness :
    (∀ l ∈ splitlines ("?? a\n?? b\n".toList), l ≠ []) ∧
    collect_repo_counts (some ⟨0, "?? a\n?? b\n".toList⟩) =
      some ⟨true, 2, 0, 0, 0⟩ :=
  ⟨by decide,
   ((C1_repo_counts_classification ("?? a\n?? b\n".toList) (by decide)).2.1
      (by decide)).trans (by decide)⟩

/-- C2: the operation-state decoder inspects the markers in a fixed priority
order with the first match winning: a `rebase-merge` directory yields
`REBASE-i`/`REBASE-m` according to the `interactive` marker with `step` and
`total` read from `msgnum` and `end` (in particular, interactive with msgnum
"3" and end "10" gives state REBASE-i, step 3, total 10 — see the witness);
otherwise `rebase-apply` yields step from `next`, total from `last` and
state `REBASE`/`AM`/`AM/REBASE` from the `rebasing`/`applying` markers;
otherwise the merge, cherry-pick, revert and bisect markers are consulted in
that order; with no marker at all everything is null. -/
theorem C2_repo_state_decoder (fs : GitDir) (st tot : Option Int) :
    (fs.rebaseMergeDir = true → fs.rebaseMergeInteractive = true →
      read_first_line_int fs.rebaseMergeMsgnum = some st →
      read_first_line_int fs.rebaseMergeEnd = some tot →
      collect_repo_state fs = some ⟨some "REBASE-i", st, tot⟩)
  ∧ (fs.rebaseMergeDir = true → fs.rebaseMergeInteractive = false →
      read_first_line_int fs.rebaseMergeMsgnum = some st →
      read_first_line_int fs.rebaseMergeEnd = some tot →
      collect_repo_state fs = some ⟨some "REBASE-m", st, tot⟩)
  ∧ (fs.rebaseMergeDir = false → fs.rebaseApplyDir = true →
      read_first_line_int fs.rebaseApplyNext = some st →
      read_first_line_int fs.rebaseApplyLast = some tot →
      collect_repo_state fs =
        some ⟨some (if fs.rebaseApplyRebasing then "REBASE"
          else if fs.rebaseApplyApplying then "AM" else "AM/REBASE"),
          st, tot⟩)
  ∧ (fs.rebaseMergeDir = false → fs.rebaseApplyDir = false →
      fs.mergeHead = true →
      collect_repo_state fs = some ⟨some "MERGING", none, none⟩)
  ∧ (fs.rebaseMergeDir = false → fs.rebaseApplyDir = false →
      fs.mergeHead = false → fs.cherryPickHead = true →
      collect_repo_state fs = some ⟨some "CHERRY-PICKING", none, none⟩)
  ∧ (fs.rebaseMergeDir = false → fs.rebaseApplyDir = false →
      fs.mergeHead = false → fs.cherryPickHead = false →
      fs.revertHead = true →
      collect_repo_state fs = some ⟨some "REVERTING", none, none⟩)
  ∧ (fs.rebaseMergeDir = false → fs.rebaseApplyDir = false →
      fs.mergeHead = false → fs.cherryPickHead = false →
      fs.revertHead = false → fs.bisectLog = true →
      collect_repo_state fs = some ⟨some "BISECTING", none, none⟩)
  ∧ (fs.rebaseMergeDir = false → fs.rebaseApplyDir = false →
      fs.mergeHead = false → fs.cherryPickHead = false →
      fs.revertHead = false → fs.bisectLog = false →
      collect_repo_state fs = some ⟨none, none, none⟩) := by
  refine ⟨?_, ?_, ?_, ?_, ?_, ?_, ?_, ?_⟩ <;>
    · intros
      simp_all [collect_repo_state]

/-- Witness for C2: interactive rebase-merge with msgnum "3" and end "10"
decodes to state REBASE-i, step 3, total 10. -/
theorem C2_witness :
    read_first_line_int (FileContent.present ["3".toList]) = some (some 3) ∧
    read_first_line_int (FileContent.present ["10".toList]) = some (some 10) ∧
    collect_repo_state
        { cleanGitDir with
          rebaseMergeDir := true,
          rebaseMergeInteractive := true,
          rebaseMergeMsgnum := .present ["3".toList],
          rebaseMergeEnd := .present ["10".toList] } =
      some ⟨some "REBASE-i", some 3, some 10⟩ :=
  ⟨by decide, by decide,
   (C2_repo_state_decoder _ (some 3) (some 10)).1 rfl rfl (by decide) (by decide)⟩

lemma fetchStep_repo_status (s : PollerState) (reg : Registry)
    (env : CollectEnv) (root : String) :
    (fetchStep s reg env root).poller.repo_status = s.repo_status := by
  obtain ⟨rr, ff, rs⟩ := s
  rcases ff with _ | fut
  · rcases henv : env.remote_cmd with _ | out <;>
      (simp [fetchStep, henv]; try split_ifs <;> rfl)
  · rcases fut with _ | fl
    · rfl
    · by_cases hfl : fl <;> simp [fetchStep, hfl]

lemma runCollectors_none_iff (env : CollectEnv) :
    runCollectors env = none ↔
      (collect_counts env.revlist_cmd = none ∨
       collect_current_branch env.branch_cmd env.revparse_cmd = none ∨
       collect_repo_counts env.status_cmd = none ∨
       collect_repo_state env.git_dir = none ∨
       collect_stashes env.stash_cmd = none) := by
  cases h1 : collect_counts env.revlist_cmd <;>
  cases h2 : collect_current_branch env.branch_cmd env.revparse_cmd <;>
  cases h3 : collect_repo_counts env.status_cmd <;>
  cases h4 : collect_repo_state env.git_dir <;>
  cases h5 : collect_stashes env.stash_cmd <;>
    simp [runCollectors, h1, h2, h3, h4, h5]

lemma collect_of_collectors_none (s : PollerState) (reg : Registry)
    (env : CollectEnv) (root : String) (hroot : s.repo_root = some root)
    (hrun : runCollectors env = none) :
    (collect s reg env).failed = true ∧
    (collect s reg env).poller.repo_status = s.repo_status := by
  simp only [collect, hroot]
  by_cases hf : (fetchStep s reg env root).failed = true
  · simp [hf, fetchStep_repo_status]
  · simp [hf, hrun, fetchStep_repo_status]

/-- C10: reading a numeric marker file returns the integer on its first
line; an existing but empty file returns Python `None` (and the decoder then
publishes the corresponding step/total field as null without failing);
a missing file, or a first line that is not an integer, raises — and a
raising marker read makes the whole cycle fail. -/
theorem C10_read_first_line_int :
    (read_first_line_int FileContent.missing = none)
  ∧ (read_first_line_int (FileContent.present []) = some none)
  ∧ (∀ (line : List Char) (rest : List (List Char)) (n : Int),
      pyInt (pyStrip line) = some n →
      read_first_line_int (FileContent.present (line :: rest)) = some (some n))
  ∧ (∀ (line : List Char) (rest : List (List Char)),
      pyInt (pyStrip line) = none →
      read_first_line_int (FileContent.present (line :: rest)) = none)
  ∧ (∀ (fs : GitDir) (tot : Option Int),
      fs.rebaseMergeDir = true →
      fs.rebaseMergeMsgnum = FileContent.present [] →
      read_first_line_int fs.rebaseMergeEnd = some tot →
      collect_repo_state fs =
        some ⟨some (if fs.rebaseMergeInteractive then "REBASE-i"
          else "REBASE-m"), none, tot⟩)
  ∧ (∀ fs : GitDir, fs.rebaseMergeDir = true →
      read_first_line_int fs.rebaseMergeMsgnum = none →
      collect_repo_state fs = none)
  ∧ (∀ (s : PollerState) (reg : Registry) (env : CollectEnv) (root : String),
      s.repo_root = some root → collect_repo_state env.git_dir = none →
      (collect s reg env).failed = true) := by
  refine ⟨rfl, rfl, ?_, ?_, ?_, ?_, ?_⟩
  · intro line rest n h
    simp [read_first_line_int, h]
  · intro line rest h
    simp [read_first_line_int, h]
  · intro fs tot h1 h2 h3
    simp_all [collect_repo_state, read_first_line_int]
  · intro fs h1 h2
    simp_all [collect_repo_state]
  · intro s reg env root hroot hst
    exact (collect_of_collectors_none s reg env root hroot
      ((runCollectors_none_iff env).2 (Or.inr (Or.inr (Or.inr (Or.inl hst)))))).1

/-- Witness for C10: an empty `msgnum` in a non-interactive rebase-merge
publishes step as null with total read from `end`; a missing marker file
raises. -/
theorem C10_witness :
    read_first_line_int FileContent.missing = none ∧
    read_first_line_int (FileContent.present ["10".toList]) = some (some 10) ∧
    collect_repo_state
        { cleanGitDir with
          rebaseMergeDir := true,
          rebaseMergeMsgnum := .present [],
          rebaseMergeEnd := .present ["10".toList] } =
      some ⟨some "REBASE-m", none, some 10⟩ :=
  ⟨C10_read_first_line_int.1, by decide,
   (C10_read_first_line_int.2.2.2.2.1 _ (some 10) rfl rfl (by decide)).trans
     (by decide)⟩

/-- C6: if any facet collector fails during a cycle, the cycle raises and no
snapshot is published — the previously stored status is left unchanged, so
no partial merge of the successful collectors becomes visible; and the
gather fails exactly when one of the five collectors fails. -/
theorem C6_atomic_on_collector_failure :
    (∀ (s : PollerState) (reg : Registry) (env : CollectEnv) (root : String),
      s.repo_root = some root → runCollectors env = none →
      (collect s reg env).failed = true ∧
      (collect s reg env).poller.repo_status = s.repo_status)
  ∧ (∀ env : CollectEnv,
      runCollectors env = none ↔
        (collect_counts env.revlist_cmd = none ∨
         collect_current_branch env.branch_cmd env.revparse_cmd = none ∨
         collect_repo_counts env.status_cmd = none ∨
         collect_repo_state env.git_dir = none ∨
         collect_stashes env.stash_cmd = none)) :=
  ⟨fun s reg env root h1 h2 => collect_of_collectors_none s reg env root h1 h2,
   runCollectors_none_iff⟩

/-- Witness for C6: with the porcelain status command failing, the cycle
fails and the previously published snapshot survives unchanged. -/
theorem C6_witness :
    runCollectors failEnv = none ∧
    (collect ⟨some "r", none, some sampleStatus⟩ [] failEnv).failed = true ∧
    (collect ⟨some "r", none, some sampleStatus⟩ [] failEnv).poller.repo_status =
      some sampleStatus := by
  refine ⟨by decide, ?_, ?_⟩
  · exact (C6_atomic_on_collector_failure.1 ⟨some "r", none, some sampleStatus⟩
      [] failEnv "r" rfl (by decide)).1
  · exact (C6_atomic_on_collector_failure.1 ⟨some "r", none, some sampleStatus⟩
      [] failEnv "r" rfl (by decide)).2

/-- C7: the branch collector returns the trimmed symbolic branch name when
that query exits zero with non-empty output; otherwise it falls back to the
short HEAD hash wrapped in square brackets when that query exits zero; it
raises exactly when the symbolic query yields no usable name (nonzero exit
or empty output) and the hash query also exits nonzero. -/
theorem C7_current_branch (o1 o2 : CmdOut) :
    (o1.rc = 0 → o1.stdout ≠ [] →
      collect_current_branch (some o1) (some o2) = some (pyStrip o1.stdout))
  ∧ ((o1.rc ≠ 0 ∨ o1.stdout = []) → o2.rc = 0 →
      collect_current_branch (some o1) (some o2) =
        some ('[' :: (pyStrip o2.stdout ++ [']'])))
  ∧ (collect_current_branch (some o1) (some o2) = none ↔
      (o1.rc ≠ 0 ∨ o1.stdout = []) ∧ o2.rc ≠ 0) := by
  refine ⟨?_, ?_, ?_⟩
  · intro h1 h2
    simp [collect_current_branch, h1, h2]
  · intro h1 h2
    have hno : ¬(o1.rc = 0 ∧ o1.stdout ≠ []) := by tauto
    simp [collect_current_branch, hno, h2]
  · by_cases hc : o1.rc = 0 ∧ o1.stdout ≠ []
    · simp [collect_current_branch, hc]
    · by_cases h2 : o2.rc = 0 <;> (simp [collect_current_branch, hc, h2]; try tauto)

/-- Witness for C7: branch `main` is returned trimmed; with empty symbolic
output the short hash is returned wrapped in brackets. -/
theorem C7_witness :
    collect_current_branch (some ⟨0, "main\n".toList⟩) (some ⟨0, []⟩) =
      some "main".toList ∧
    collect_current_branch (some ⟨0, []⟩) (some ⟨0, "abc123\n".toList⟩) =
      some "[abc123]".toList :=
  ⟨((C7_current_branch ⟨0, "main\n".toList⟩ ⟨0, []⟩).1 rfl (by decide)).trans
     (by decide),
   ((C7_current_branch ⟨0, []⟩ ⟨0, "abc123\n".toList⟩).2.1 (Or.inr rfl)
     rfl).trans (by decide)⟩

/-- C8: the ahead/behind collector substitutes (0, 0) instead of failing on
a nonzero exit, and on a zero exit returns the two whitespace-separated
integers of the output as (push_count, pull_count). -/
theorem C8_counts (o : CmdOut) :
    (o.rc ≠ 0 → collect_counts (some o) = some (0, 0))
  ∧ (∀ a b : Int, o.rc = 0 → (pySplit o.stdout).mapM pyInt = some [a, b] →
      collect_counts (some o) = some (a, b)) := by
  constructor
  · intro h
    simp [collect_counts, h]
  · intro a b h1 h2
    simp only [collect_counts]
    rw [if_pos h1, h2]

/-- Witness for C8: exit code 128 yields (0, 0); output `3 1` with exit 0
yields (3, 1). -/
theorem C8_witness :
    collect_counts (some ⟨128, "fatal".toList⟩) = some (0, 0) ∧
    (pySplit ("3\t1\n".toList)).mapM pyInt = some [3, 1] ∧
    collect_counts (some ⟨0, "3\t1\n".toList⟩) = some (3, 1) :=
  ⟨(C8_counts ⟨128, "fatal".toList⟩).1 (by decide), by decide,
   (C8_counts ⟨0, "3\t1\n".toList⟩).2 3 1 rfl (by decide)⟩

lemma regSetdefault_fst (reg : Registry) (k : String) (d : Int) :
    (regSetdefault reg k d).1 = (regGet reg k).getD d := by
  unfold regSetdefault
  cases regGet reg k <;> simp

/-- C3: a poller holds at most one pending refresh — on a cycle where a
refresh is already pending no second one is started (the stored future is
either kept or reaped away); and on a cycle with no pending refresh where
the remote listing has non-blank output and the current time exceeds the
registry timestamp for the current root plus the polling interval, exactly
one background refresh is started and recorded as the pending future. -/
theorem C3_debounce :
    (∀ (s : PollerState) (reg : Registry) (env : CollectEnv)
      (t : FutureStatus), s.fetch_future = some t →
      (collect s reg env).startedRefresh = false ∧
      ((collect s reg env).poller.fetch_future = some t ∨
       (collect s reg env).poller.fetch_future = none))
  ∧ (∀ (s : PollerState) (reg : Registry) (env : CollectEnv) (root : String)
      (out : CmdOut),
      s.repo_root = some root → s.fetch_future = none →
      env.remote_cmd = some out → pyStrip out.stdout ≠ [] →
      (regGet reg root).getD 0 + POLLING_INTERVAL < env.now →
      (collect s reg env).startedRefresh = true ∧
      (collect s reg env).poller.fetch_future = some FutureStatus.running) := by
  constructor
  · intro s reg env t hft
    obtain ⟨rr, ff, rs⟩ := s
    simp only at hft
    subst hft
    rcases rr with _ | root
    · exact ⟨rfl, Or.inl rfl⟩
    · rcases t with _ | fl
      · cases hrc : runCollectors env <;> simp [collect, fetchStep, hrc]
      · cases fl
        · cases hrc : runCollectors env <;> simp [collect, fetchStep, hrc]
        · simp [collect, fetchStep]
  · intro s reg env root out hroot hff henv hstrip hlt
    obtain ⟨rr, ff, rs⟩ := s
    simp only at hroot hff
    subst hroot
    subst hff
    have hv : (regSetdefault reg root 0).1 = (regGet reg root).getD 0 :=
      regSetdefault_fst reg root 0
    cases hrc : runCollectors env <;>
      simp [collect, fetchStep, henv, hstrip, hv, hlt, hrc]

/-- An environment in which the remote listing reports a remote named
`origin`. -/
def startEnv : CollectEnv :=
  { sampleEnv with remote_cmd := some ⟨0, "origin\n".toList⟩ }

/-- Witness for C3: with an empty registry and a configured remote at time
100, a cycle with no pending refresh starts one; a cycle with a running
refresh starts none. -/
theorem C3_witness :
    pyStrip ("origin\n".toList) ≠ [] ∧
    (regGet ([] : Registry) "r").getD 0 + POLLING_INTERVAL < startEnv.now ∧
    (collect ⟨some "r", none, none⟩ [] startEnv).startedRefresh = true ∧
    (collect ⟨some "r", none, none⟩ [] startEnv).poller.fetch_future =
      some FutureStatus.running ∧
    (collect ⟨some "r", some FutureStatus.running, none⟩ []
        startEnv).startedRefresh = false := by
  refine ⟨by decide, by decide, ?_, ?_, ?_⟩
  · exact (C3_debounce.2 ⟨some "r", none, none⟩ [] startEnv "r"
      ⟨0, "origin\n".toList⟩ rfl rfl rfl (by decide) (by decide)).1
  · exact (C3_debounce.2 ⟨some "r", none, none⟩ [] startEnv "r"
      ⟨0, "origin\n".toList⟩ rfl rfl rfl (by decide) (by decide)).2
  · exact (C3_debounce.1 ⟨some "r", some FutureStatus.running, none⟩ []
      startEnv FutureStatus.running rfl).1

/-- C4: when the background refresh completes after it spawned, the registry
timestamp for the root bound at start is set to the completion time whatever
the current root now is; the update-trigger callback is suppressed when the
current root no longer equals the bound root, and is invoked only when the
roots still agree and a trigger was supplied. -/
theorem C4_reap_changed_root (boundRoot : String) (rootAtC : Option String)
    (reg : Registry) (out : CmdOut) (trig : Bool) (t : Int) :
    regGet (do_fetch boundRoot rootAtC reg (some out) trig t).registry
        boundRoot = some t
  ∧ (rootAtC ≠ some boundRoot →
      (do_fetch boundRoot rootAtC reg (some out) trig t).callbackInvoked =
        false)
  ∧ ((do_fetch boundRoot rootAtC reg (some out) trig t).callbackInvoked =
        true → rootAtC = some boundRoot ∧ trig = true) := by
  refine ⟨?_, ?_, ?_⟩
  · simp [do_fetch, regGet_regSet_self]
  · intro h
    simp [do_fetch, h]
  · intro h
    simpa [do_fetch] using h

/-- Witness for C4: a refresh bound to root `r` completing while the current
root is `r2` stamps the registry at `r` and suppresses the callback. -/
theorem C4_witness :
    regGet (do_fetch "r" (some "r2") [] (some ⟨0, []⟩) true 7).registry "r" =
      some 7 ∧
    (do_fetch "r" (some "r2") [] (some ⟨0, []⟩) true 7).callbackInvoked =
      false :=
  ⟨(C4_reap_changed_root "r" (some "r2") [] ⟨0, []⟩ true 7).1,
   (C4_reap_changed_root "r" (some "r2") [] ⟨0, []⟩ true 7).2.1 (by decide)⟩

/-- Counterexample to C5 as stated: a fetch that spawned and exited with the
nonzero code 1 does not make its task fail — the registry is still stamped,
and the cycle that reaps the completed future succeeds and publishes a
snapshot.  The exit code of `git fetch --quiet` is discarded by
`_do_fetch`. -/
theorem C5_nonzero_exit_counterexample :
    (do_fetch "r" (some "r") [] (some ⟨1, []⟩) false 50).task =
      FutureStatus.done false ∧
    regGet (do_fetch "r" (some "r") [] (some ⟨1, []⟩) false 50).registry "r" =
      some 50 ∧
    (collect ⟨some "r", some (FutureStatus.done false), none⟩ []
        sampleEnv).failed = false ∧
    (collect ⟨some "r", some (FutureStatus.done false), none⟩ []
        sampleEnv).poller.repo_status = some sampleStatus := by
  refine ⟨rfl, rfl, by decide, by decide⟩

/-- C5 (amended): only a failure to spawn the fetch process is stored in the
background task and propagated as fatal by the cycle that reaps it (which
then leaves the pending future and the registry untouched); a nonzero exit
code of the fetch command is discarded, the task completes successfully,
and the reaping cycle does not fail because of it. -/
theorem C5_fetch_failure_fatal_when_reaped :
    (∀ (b : String) (r : Option String) (reg : Registry) (trig : Bool)
      (t : Int), do_fetch b r reg none trig t = ⟨reg, false, .done true⟩)
  ∧ (∀ (b : String) (r : Option String) (reg : Registry) (out : CmdOut)
      (trig : Bool) (t : Int),
      (do_fetch b r reg (some out) trig t).task = FutureStatus.done false)
  ∧ (∀ (s : PollerState) (reg : Registry) (env : CollectEnv) (root : String),
      s.repo_root = some root →
      s.fetch_future = some (FutureStatus.done true) →
      collect s reg env = ⟨s, reg, true, false⟩)
  ∧ (∀ (s : PollerState) (reg : Registry) (env : CollectEnv) (root : String),
      s.repo_root = some root →
      s.fetch_future = some (FutureStatus.done false) →
      runCollectors env ≠ none → (collect s reg env).failed = false) := by
  refine ⟨fun b r reg trig t => rfl, fun b r reg out trig t => rfl, ?_, ?_⟩
  · intro s reg env root hroot hff
    obtain ⟨rr, ff, rs⟩ := s
    simp only at hroot hff
    subst hroot
    subst hff
    rfl
  · intro s reg env root hroot hff hrun
    obtain ⟨rr, ff, rs⟩ := s
    simp only at hroot hff
    subst hroot
    subst hff
    cases hrc : runCollectors env with
    | none => exact absurd hrc hrun
    | some v => simp [collect, fetchStep, hrc]

/-- Witness for the amended C5: a spawn failure makes the task fail and the
reaping cycle fatal with the future left in place; a successfully completed
task is reaped without failure. -/
theorem C5_witness :
    do_fetch "r" (some "r") [] none false 50 =
      ⟨[], false, FutureStatus.done true⟩ ∧
    collect ⟨some "r", some (FutureStatus.done true), none⟩ [] sampleEnv =
      ⟨⟨some "r", some (FutureStatus.done true), none⟩, [], true, false⟩ ∧
    runCollectors sampleEnv ≠ none ∧
    (collect ⟨some "r", some (FutureStatus.done false), none⟩ []
        sampleEnv).failed = false :=
  ⟨C5_fetch_failure_fatal_when_reaped.1 "r" (some "r") [] false 50,
   C5_fetch_failure_fatal_when_reaped.2.2.1
     ⟨some "r", some (FutureStatus.done true), none⟩ [] sampleEnv "r" rfl rfl,
   by decide,
   C5_fetch_failure_fatal_when_reaped.2.2.2
     ⟨some "r", some (FutureStatus.done false), none⟩ [] sampleEnv "r" rfl rfl
     (by decide)⟩

lemma collect_after_success_reap (rr : String) (rs : Option RepoStatus)
    (reg : Registry) (env : CollectEnv) :
    (collect ⟨some rr, some (FutureStatus.done false), rs⟩ reg env).registry =
      regSet reg rr env.now ∧
    (collect ⟨some rr, some (FutureStatus.done false), rs⟩ reg
        env).poller.fetch_future = none := by
  cases hrc : runCollectors env <;> simp [collect, fetchStep, hrc]

/-- C9: reaping a completed refresh stamps the registry for the poller's
CURRENT root at the reap time, in addition to the bound root's stamp made
when the fetch completed; so after the root changed from `r` to `r2`
mid-flight, `r2`'s debounce timestamp is advanced to the reap time (its key
now maps to the reap time, postponing its next refresh) even though the
fetch ran for `r`. -/
theorem C9_reap_stamps_current_root (r r2 : String) (reg : Registry)
    (fetchOut : CmdOut) (trig : Bool) (tc : Int) (st : Option RepoStatus)
    (env : CollectEnv) (hne : r ≠ r2) :
    regGet (collect
        ⟨some r2, some (do_fetch r (some r2) reg (some fetchOut) trig tc).task,
          st⟩
        (do_fetch r (some r2) reg (some fetchOut) trig tc).registry
        env).registry r2 = some env.now
  ∧ regGet (collect
        ⟨some r2, some (do_fetch r (some r2) reg (some fetchOut) trig tc).task,
          st⟩
        (do_fetch r (some r2) reg (some fetchOut) trig tc).registry
        env).registry r = some tc
  ∧ (collect
        ⟨some r2, some (do_fetch r (some r2) reg (some fetchOut) trig tc).task,
          st⟩
        (do_fetch r (some r2) reg (some fetchOut) trig tc).registry
        env).poller.fetch_future = none := by
  have e1 : (do_fetch r (some r2) reg (some fetchOut) trig tc).task =
      FutureStatus.done false := rfl
  have e2 : (do_fetch r (some r2) reg (some fetchOut) trig tc).registry =
      regSet reg r tc := rfl
  rw [e1, e2]
  have h := collect_after_success_reap r2 st (regSet reg r tc) env
  refine ⟨?_, ?_, h.2⟩
  · rw [h.1, regGet_regSet_self]
  · rw [h.1, regGet_regSet_ne _ _ _ _ hne, regGet_regSet_self]

/-- Witness for C9: fetch bound to `r` completed at time 42, root changed to
`s`, reap at time 100 — both roots end up stamped. -/
theorem C9_witness :
    ("r" : String) ≠ "s" ∧
    regGet (collect
        ⟨some "s", some (do_fetch "r" (some "s") [] (some ⟨0, []⟩) true 42).task,
          none⟩
        (do_fetch "r" (some "s") [] (some ⟨0, []⟩) true 42).registry
        sampleEnv).registry "s" = some 100 ∧
    regGet (collect
        ⟨some "s", some (do_fetch "r" (some "s") [] (some ⟨0, []⟩) true 42).task,
          none⟩
        (do_fetch "r" (some "s") [] (some ⟨0, []⟩) true 42).registry
        sampleEnv).registry "r" = some 42 :=
  ⟨by decide,
   (C9_reap_stamps_current_root "r" "s" [] ⟨0, []⟩ true 42 none sampleEnv
     (by decide)).1,
   (C9_reap_stamps_current_root "r" "s" [] ⟨0, []⟩ true 42 none sampleEnv
     (by decide)).2.1⟩


end BetterGit
